import Mathlib

/-!
Verification of the `app_freeze` device-communication layer
(`src/app_freeze/adb/{client,parser,models,errors}.py`).

The Python code is shallowly embedded: pure parsing functions become Lean
functions on `String`/`List Char`; the subprocess runner is represented by
explicit oracle parameters (the outcome of each external command), and the
commands a function issues are returned as an explicit trace so that claims
about "which subcommands are issued" are statable.  Python `float` sizes are
modelled with `ℚ` (the claims settled here do not depend on binary floating
point rounding); Python exceptions become `Except`/`Option` results.
-/

namespace AppFreeze

/-- ASCII whitespace as recognised by Python's `str.strip()` / `str.split()`
(restricted to the ASCII range; the adb outputs handled here are ASCII). -/
def pyIsSpace (c : Char) : Bool :=
  c = ' ' || c = '\t' || c = '\n' || c = '\r' || c = '\x0b' || c = '\x0c'

/-- Python `str.strip()` (no arguments): drop whitespace at both ends. -/
def pyStrip (s : String) : String :=
  ⟨((s.data.dropWhile pyIsSpace).reverse.dropWhile pyIsSpace).reverse⟩

/-- Python `str.lower()` on the ASCII range, character by character. -/
def pyLower (s : String) : String :=
  ⟨s.data.map Char.toLower⟩

/-- Does the text (second argument) start with the pattern (first argument)?
(List-level helper for substring search.) -/
def chStartsWith : List Char → List Char → Bool
  | [], _ => true
  | _ :: _, [] => false
  | a :: as, b :: bs => decide (a = b) && chStartsWith as bs

/-- Is `n` a contiguous sublist of `h`?  (Helper for Python's `in`.) -/
def chContains (n : List Char) : List Char → Bool
  | [] => n.isEmpty
  | c :: cs => chStartsWith n (c :: cs) || chContains n cs

/-- Python's substring test `needle in haystack`. -/
def pyIn (needle haystack : String) : Bool :=
  chContains needle.data haystack.data

/-- Accumulator-style worker for Python `str.split()` (no separator):
split on runs of whitespace, producing no empty words. -/
def pyWordsAux : List Char → List Char → List String
  | [], acc => if acc.isEmpty then [] else [⟨acc.reverse⟩]
  | c :: cs, acc =>
      if pyIsSpace c then
        if acc.isEmpty then pyWordsAux cs []
        else ⟨acc.reverse⟩ :: pyWordsAux cs []
      else pyWordsAux cs (c :: acc)

/-- Python `str.split()` with no separator argument. -/
def pySplitWs (s : String) : List String :=
  pyWordsAux s.data []

/-- Accumulator-style worker for Python `str.splitlines()`: split on
`\r\n`, `\r` and `\n`, with no trailing empty line. -/
def pySplitLinesAux : List Char → List Char → List String
  | [], acc => if acc.isEmpty then [] else [⟨acc.reverse⟩]
  | '\r' :: '\n' :: cs, acc => ⟨acc.reverse⟩ :: pySplitLinesAux cs []
  | '\r' :: cs, acc => ⟨acc.reverse⟩ :: pySplitLinesAux cs []
  | '\n' :: cs, acc => ⟨acc.reverse⟩ :: pySplitLinesAux cs []
  | c :: cs, acc => pySplitLinesAux cs (c :: acc)

/-- Python `str.splitlines()` (restricted to the `\n` / `\r` / `\r\n`
line breaks that occur in adb output). -/
def pySplitLines (s : String) : List String :=
  pySplitLinesAux s.data []

/-- Python `sep.join(parts)`. -/
def pyJoin (sep : String) : List String → String
  | [] => ""
  | [x] => x
  | x :: y :: rest => x ++ sep ++ pyJoin sep (y :: rest)

/-- Digit run folded to a number (worker for Python `int(...)`). -/
def digitsToNat (cs : List Char) : Nat :=
  cs.foldl (fun acc c => acc * 10 + (c.toNat - '0'.toNat)) 0

/-- Python `int(s)` on a string: optional surrounding whitespace, optional
sign, then a nonempty ASCII digit run; anything else raises `ValueError`
(`none` here).  (Digit-group underscores and non-ASCII digits, which Python
also accepts, do not occur in adb output and are not modelled.) -/
def pyInt (s : String) : Option Int :=
  let core := (pyStrip s).data
  match core with
  | '-' :: ds => if ds ≠ [] ∧ ds.all Char.isDigit then some (-(digitsToNat ds : Int)) else none
  | '+' :: ds => if ds ≠ [] ∧ ds.all Char.isDigit then some (digitsToNat ds : Int) else none
  | ds => if ds ≠ [] ∧ ds.all Char.isDigit then some (digitsToNat ds : Int) else none

/-- Python `str.replace("_", " ")` (single-character pattern). -/
def pyReplaceUnderscore (s : String) : String :=
  ⟨s.data.map (fun c => if c = '_' then ' ' else c)⟩

/-- Worker for Python `s.split(sep)` with a one-character separator. -/
def pySplitChAux (sep : Char) : List Char → List Char → List String
  | [], acc => [⟨acc.reverse⟩]
  | c :: cs, acc =>
      if c = sep then ⟨acc.reverse⟩ :: pySplitChAux sep cs []
      else pySplitChAux sep cs (c :: acc)

/-- Python `s.split(sep)` with a one-character separator (keeps empties,
`"".split(sep) = [""]`). -/
def pySplitCh (sep : Char) (s : String) : List String :=
  pySplitChAux sep s.data []

/-- Equality on `Except` values is decidable componentwise. -/
instance {ε α : Type} [DecidableEq ε] [DecidableEq α] : DecidableEq (Except ε α) :=
  fun a b =>
    match a, b with
    | Except.ok x, Except.ok y =>
        if h : x = y then Decidable.isTrue (by rw [h])
        else Decidable.isFalse (by intro hc; cases hc; exact h rfl)
    | Except.error x, Except.error y =>
        if h : x = y then Decidable.isTrue (by rw [h])
        else Decidable.isFalse (by intro hc; cases hc; exact h rfl)
    | Except.ok _, Except.error _ => Decidable.isFalse (by intro hc; cases hc)
    | Except.error _, Except.ok _ => Decidable.isFalse (by intro hc; cases hc)

/-- Split a character list at its first `':'` (Python `part.split(":", 1)`;
only used on parts that contain a colon). -/
def splitAtColon : List Char → List Char × List Char
  | [] => ([], [])
  | ':' :: rest => ([], rest)
  | c :: rest => ((splitAtColon rest).1.cons c, (splitAtColon rest).2)

/-- Python-`dict` insertion: overwrite the value in place when the key is
already present (keeping insertion order), else append. -/
def dictInsert {α : Type} (d : List (String × α)) (k : String) (v : α) :
    List (String × α) :=
  if d.any (fun kv => kv.1 == k) then
    d.map (fun kv => if kv.1 == k then (k, v) else kv)
  else d ++ [(k, v)]

/-- Python-`dict` lookup (`d.get(k)`). -/
def dictGet {α : Type} (d : List (String × α)) (k : String) : Option α :=
  (d.find? (fun kv => kv.1 == k)).map (fun kv => kv.2)

/-- Python-`dict` removal (`d.pop(k, None)`). -/
def dictRemove {α : Type} (d : List (String × α)) (k : String) :
    List (String × α) :=
  d.filter (fun kv => kv.1 != k)

/-! ## Domain model (`models.py`) -/

/-- `DeviceState` — ADB device connection states. -/
inductive DeviceState
  | DEVICE
  | OFFLINE
  | UNAUTHORIZED
  | BOOTLOADER
  | RECOVERY
  | SIDELOAD
  | UNKNOWN
deriving DecidableEq, Repr

/-- `DeviceInfo` — complete Android device information. -/
structure DeviceInfo where
  device_id : String
  state : DeviceState
  model : String := ""
  manufacturer : String := ""
  android_version : String := ""
  sdk_level : Int := 0
  product : String := ""
  transport_id : Int := 0
deriving DecidableEq, Repr

/-- `DeviceInfo.is_ready` — the device accepts commands. -/
def DeviceInfo.is_ready (d : DeviceInfo) : Bool :=
  d.state = DeviceState.DEVICE

/-- `AppInfo` — Android application information (`size_mb` as `ℚ`). -/
structure AppInfo where
  package_name : String
  is_system : Bool
  is_enabled : Bool
  size_mb : ℚ := 0
  version_code : Int := 0
  app_label : String := ""
deriving DecidableEq, Repr

/-- `DeviceCache` — mapping from device id to cached `DeviceInfo`,
with Python-`dict` semantics. -/
def DeviceCache : Type := List (String × DeviceInfo)

/-! ## Error taxonomy (`errors.py`).  Each Python exception class is a
constructor carrying the message the class constructor builds (`str(e)`). -/

/-- The `ADBError` exception hierarchy, each constructor holding its
formatted message. -/
inductive ADBErr
  | commandError (message : String)
  | timeoutError (message : String)
  | deviceNotFound (message : String)
  | deviceDisconnected (message : String)
  | permissionError (message : String)
deriving DecidableEq, Repr

/-- `ADBDeviceNotFoundError(device_id)`'s message. -/
def mkDeviceNotFoundErr (device_id : String) : ADBErr :=
  ADBErr.deviceNotFound ("Device not found or disconnected: " ++ device_id)

/-- `ADBDeviceDisconnectedError(device_id)`'s message. -/
def mkDeviceDisconnectedErr (device_id : String) : ADBErr :=
  ADBErr.deviceDisconnected
    ("Device disconnected during operation: " ++ device_id ++
      "\nPlease reconnect the device and try again.")

/-- `ADBCommandError(command, exit_code, stderr)`'s message. -/
def mkCommandErr (command : String) (exit_code : Int) (stderr : String) : ADBErr :=
  ADBErr.commandError
    ("ADB command failed (exit " ++ toString exit_code ++ "): " ++
      (if pyStrip stderr = "" then command else pyStrip stderr))

/-- `ADBPermissionError(operation, device_id)`'s message (solution text
elided after the first line it formats). -/
def mkPermissionErr (operation : String) (device_id : String) : ADBErr :=
  ADBErr.permissionError
    ("Permission denied for " ++ operation ++ " on device " ++ device_id ++
      "\nPossible solutions: (see errors.py)")

/-- `ADBTimeoutError(command, timeout)`'s message, taking the seconds value
preformatted (Python float repr is outside this model). -/
def mkTimeoutErr (command : String) (timeoutRepr : String) : ADBErr :=
  ADBErr.timeoutError
    ("ADB command timed out after " ++ timeoutRepr ++ "s: " ++ command)

/-! ## Output parsers (`parser.py`) -/

/-- `parse_device_state` — case-insensitive token-to-enum map, default
`UNKNOWN`. -/
def parse_device_state (state_str : String) : DeviceState :=
  let l := pyLower state_str
  if l = "device" then DeviceState.DEVICE
  else if l = "offline" then DeviceState.OFFLINE
  else if l = "unauthorized" then DeviceState.UNAUTHORIZED
  else if l = "bootloader" then DeviceState.BOOTLOADER
  else if l = "recovery" then DeviceState.RECOVERY
  else if l = "sideload" then DeviceState.SIDELOAD
  else DeviceState.UNKNOWN

/-- One iteration of `parse_devices_output`'s line loop: banner and empty
lines and lines with fewer than two fields yield nothing. -/
def parseDeviceLine (rawLine : String) :
    Option (String × DeviceState × List (String × String)) :=
  let line := pyStrip rawLine
  if line = "" || chStartsWith "List of devices".data line.data then none
  else
    match pySplitWs line with
    | [] => none
    | [_] => none
    | device_id :: stateTok :: rest =>
        some (device_id, parse_device_state stateTok,
          rest.foldl (fun props part =>
            if pyIn ":" part then
              let kv := splitAtColon part.data
              dictInsert props ⟨kv.1⟩ ⟨kv.2⟩
            else props) [])

/-- `parse_devices_output` — parse `adb devices -l` output into
`(device_id, state, properties)` rows. -/
def parse_devices_output (output : String) :
    List (String × DeviceState × List (String × String)) :=
  (pySplitLines (pyStrip output)).filterMap parseDeviceLine

/-- Match `UserInfo\x7b(\d+):` at the start of the character list
(the regex's group 1 as a number). -/
def userInfoMatchAt (cs : List Char) : Option Nat :=
  if chStartsWith "UserInfo\x7b".data cs then
    let rest := cs.drop 9
    let ds := rest.takeWhile Char.isDigit
    if ds.isEmpty then none
    else if (rest.drop ds.length).head? = some ':' then some (digitsToNat ds)
    else none
  else none

/-- `re.search` of `UserInfo\x7b(\d+):` — first match in the line. -/
def userInfoSearch : List Char → Option Nat
  | [] => none
  | c :: cs =>
      match userInfoMatchAt (c :: cs) with
      | some n => some n
      | none => userInfoSearch cs

/-- `parse_users_output` — ids of the first `UserInfo\x7b<id>:` match of each
line of `pm list users` output. -/
def parse_users_output (output : String) : List Nat :=
  (pySplitLines (pyStrip output)).filterMap (fun line => userInfoSearch line.data)

/-- `parse_packages_output` — every line prefixed `package:` contributes the
remainder. -/
def parse_packages_output (output : String) : List String :=
  (pySplitLines (pyStrip output)).filterMap (fun rawLine =>
    let line := pyStrip rawLine
    if chStartsWith "package:".data line.data then some ⟨line.data.drop 8⟩
    else none)

/-- Characters matched by the `[\d.]` class of `parse_du_output`'s regex. -/
def duNumChar (c : Char) : Bool :=
  c.isDigit || c = '.'

/-- `re.match(r"([\d.]+)([KMGT])?", s)`: anchored at the start; greedy
number group, then an optional unit letter. -/
def duRegexMatch (cs : List Char) : Option (List Char × Option Char) :=
  let num := cs.takeWhile duNumChar
  if num.isEmpty then none
  else
    match (cs.drop num.length).head? with
    | some c =>
        if c = 'K' || c = 'M' || c = 'G' || c = 'T' then some (num, some c)
        else some (num, none)
    | none => some (num, none)

/-- Exact nonnegative fraction `(numerator, denominator)` modelling a Python
float value in this parser (all values here are exact decimals, so the
binary-float representation error is zero for the properties settled). -/
abbrev Frac : Type := Nat × Nat

/-- Exact product of two fractions (`value * multiplier`). -/
def fracMul (a b : Frac) : Frac :=
  (a.1 * b.1, a.2 * b.2)

/-- Python `float()` on a string over `[0-9.]`: defined iff the string has at
least one digit and at most one dot; otherwise `ValueError` (`none`).  The
decimal `ip.fp` is the exact fraction `(ip * 10^k + fp) / 10^k`. -/
def pyFloatDu (cs : List Char) : Option Frac :=
  if cs.any Char.isDigit ∧ cs.count '.' ≤ 1 then
    let ip := cs.takeWhile (fun c => c != '.')
    let fp := (cs.dropWhile (fun c => c != '.')).drop 1
    some (digitsToNat ip * 10 ^ fp.length + digitsToNat fp, 10 ^ fp.length)
  else none

/-- Round half to even (Python `round`'s tie rule) of `n / d` for `d ≠ 0`. -/
def roundHalfEven (n d : Nat) : Nat :=
  let f := n / d
  let r := n % d
  if 2 * r < d then f
  else if d < 2 * r then f + 1
  else if f % 2 = 0 then f else f + 1

/-- Python `round(x, 2)` of the exact fraction, as a rational number of
hundredths. -/
def pyRound2 (x : Frac) : ℚ :=
  mkRat (roundHalfEven (x.1 * 100) x.2) 100

/-- The `multipliers` dict of `parse_du_output` (with its `.get(unit, 1.0)`
default), as exact fractions: K=0.001, M=1, G=1024, T=1048576. -/
def duMultiplier (u : Char) : Frac :=
  if u = 'K' then (1, 1000)
  else if u = 'M' then (1, 1)
  else if u = 'G' then (1024, 1)
  else if u = 'T' then (1024 * 1024, 1)
  else (1, 1)

/-- `parse_du_output` — size in MB from `du -sh` output; `none` models an
uncaught Python exception (the `ValueError` that `float()` raises on a
matched token that is not a valid float literal). -/
def parse_du_output (output : String) : Option ℚ :=
  let line := if pyStrip output = "" then ""
              else (pySplitCh '\n' (pyStrip output)).headD ""
  match pySplitWs line with
  | [] => some 0
  | size_str :: _ =>
      match duRegexMatch size_str.data with
      | none => some 0
      | some (num, unitOpt) =>
          match pyFloatDu num with
          | none => none
          | some v => some (pyRound2 (fracMul v (duMultiplier (unitOpt.getD 'K'))))

/-! ## ADB client (`client.py`).

Subprocess results are oracle parameters; each operation that issues
subcommands also returns the trace of commands it issued, so that claims
about which subcommands run are statable. -/

/-- Truthiness of an optional-string argument (`if device_id:`). -/
def pyTruthy : Option String → Bool
  | none => false
  | some s => s != ""

/-- Outcome of one `subprocess.run` invocation. -/
inductive ProcOutcome
  | completed (returncode : Int) (stdout stderr : String)
  | timedOut
deriving DecidableEq, Repr

/-- `ADBClient._run` — build the command line and classify the subprocess
outcome: timeout, device-vanished, permission and generic-failure cases, in
the source's precedence order; zero exit returns `(stdout, stderr)`. -/
def adbRun (adb_path : String) (args : List String) (device_id : Option String)
    (timeoutRepr : String) (outcome : ProcOutcome) :
    Except ADBErr (String × String) :=
  let cmd := [adb_path] ++
    (if pyTruthy device_id then ["-s", device_id.getD ""] else []) ++ args
  let cmd_str := pyJoin " " cmd
  match outcome with
  | ProcOutcome.timedOut => Except.error (mkTimeoutErr cmd_str timeoutRepr)
  | ProcOutcome.completed rc stdout stderr =>
      if rc ≠ 0 then
        let sl := pyLower stderr
        if pyIn "device" sl &&
            (pyIn "not found" sl || pyIn "offline" sl || pyIn "disconnected" sl) then
          if pyTruthy device_id then
            Except.error (mkDeviceDisconnectedErr (device_id.getD ""))
          else Except.error (mkDeviceNotFoundErr "unknown")
        else if pyIn "permission denied" sl || pyIn "insufficient permissions" sl then
          Except.error (mkPermissionErr (pyJoin " " (args.take 2))
            (if pyTruthy device_id then device_id.getD "" else "unknown"))
        else Except.error (mkCommandErr cmd_str rc stderr)
      else Except.ok (stdout, stderr)

/-- Build one `DeviceInfo` from a parsed device row (`list_devices`'s loop
body building a fresh record); `Except.error` is the uncaught Python
`ValueError` from `int(props.get("transport_id", 0))`. -/
def deviceFromRow (row : String × DeviceState × List (String × String)) :
    Except String DeviceInfo :=
  let props := row.2.2
  let tid : Except String Int :=
    match dictGet props "transport_id" with
    | none => Except.ok 0
    | some v =>
        match pyInt v with
        | some n => Except.ok n
        | none => Except.error ("invalid literal for int() with base 10: " ++ v)
  tid.map (fun t =>
    { device_id := row.1
      state := row.2.1
      model := pyReplaceUnderscore ((dictGet props "model").getD "")
      product := (dictGet props "product").getD ""
      transport_id := t })

/-- `ADBClient.list_devices`'s row loop: a cache hit with matching state is
reused when `use_cache`, else a fresh record is built (which can raise). -/
def listDevicesLoop (cache : List (String × DeviceInfo)) (use_cache : Bool) :
    List (String × DeviceState × List (String × String)) →
    Except String (List DeviceInfo)
  | [] => Except.ok []
  | row :: rest =>
      let mk : Except String DeviceInfo :=
        match (if use_cache then dictGet cache row.1 else none) with
        | some cached =>
            if cached.state = row.2.1 then Except.ok cached else deviceFromRow row
        | none => deviceFromRow row
      match mk with
      | Except.error e => Except.error e
      | Except.ok d => (listDevicesLoop cache use_cache rest).map (fun ds => d :: ds)

/-- `ADBClient.list_devices` given the raw `adb devices -l` stdout. -/
def list_devices (stdout : String) (cache : List (String × DeviceInfo))
    (use_cache : Bool) : Except String (List DeviceInfo) :=
  listDevicesLoop cache use_cache (parse_devices_output stdout)

/-- `ADBClient.get_ready_devices` given the built device list. -/
def get_ready_devices (devices : List DeviceInfo) : List DeviceInfo :=
  devices.filter DeviceInfo.is_ready

/-- `ADBClient.validate_device` given the freshly listed devices. -/
def validate_device (devices : List DeviceInfo) (device_id : String) :
    Except ADBErr DeviceInfo :=
  match devices.find? (fun d => d.device_id == device_id) with
  | none => Except.error (mkDeviceNotFoundErr device_id)
  | some d =>
      if ¬ d.is_ready then Except.error (mkDeviceNotFoundErr device_id)
      else Except.ok d

/-- The multi-device message `select_device` formats. -/
def multiDeviceMsg (ready : List DeviceInfo) : String :=
  "Multiple devices available (" ++ toString ready.length ++ "). " ++
    "Please specify device ID: " ++ pyJoin ", " (ready.map (fun d => d.device_id))

/-- `ADBClient.select_device` given the freshly listed devices. -/
def select_device (devices : List DeviceInfo) (device_id : Option String) :
    Except ADBErr DeviceInfo :=
  if pyTruthy device_id then validate_device devices (device_id.getD "")
  else
    match get_ready_devices devices with
    | [] => Except.error (mkDeviceNotFoundErr "No ready devices available")
    | [d] => Except.ok d
    | ready => Except.error (mkDeviceNotFoundErr (multiDeviceMsg ready))

/-- A subcommand issued by the client, for traces. -/
inductive Cmd
  | listDevicesCmd
  | getprop (device_id prop : String)
  | shellCmd (device_id : String) (args : List String)
deriving DecidableEq, Repr

/-- The detailed record `get_device_info` constructs from the four property
fetches: `model or device.model`, sdk string parsed with `ValueError`
degrading to 0 (and empty string meaning 0). -/
def fullDeviceInfo (device_id : String) (device : DeviceInfo)
    (prop : String → String) : DeviceInfo :=
  let model := prop "ro.product.model"
  let manufacturer := prop "ro.product.manufacturer"
  let android_version := prop "ro.build.version.release"
  let sdk_str := prop "ro.build.version.sdk"
  let sdk_level : Int := if sdk_str = "" then 0 else (pyInt sdk_str).getD 0
  { device_id := device_id
    state := device.state
    model := if model = "" then device.model else model
    manufacturer := manufacturer
    android_version := android_version
    sdk_level := sdk_level
    product := device.product
    transport_id := device.transport_id }

/-- `ADBClient.get_device_info` — oracle parameters: the device list the
inner `list_devices` call would produce and the (post-`_get_prop`, i.e.
already stripped and failure-swallowed) property values.  Returns the
result, the updated cache and the trace of issued subcommands. -/
def get_device_info (listDevicesResult : List DeviceInfo)
    (prop : String → String) (cache : List (String × DeviceInfo))
    (device_id : String) (force_refresh : Bool) :
    Except ADBErr DeviceInfo × List (String × DeviceInfo) × List Cmd :=
  let hit : Option DeviceInfo :=
    if force_refresh then none
    else
      match dictGet cache device_id with
      | some cached => if cached.sdk_level > 0 then some cached else none
      | none => none
  match hit with
  | some cached => (Except.ok cached, cache, [])
  | none =>
      match listDevicesResult.find? (fun d => d.device_id == device_id) with
      | none =>
          (Except.error (mkDeviceNotFoundErr device_id), cache, [Cmd.listDevicesCmd])
      | some device =>
          if ¬ device.is_ready then (Except.ok device, cache, [Cmd.listDevicesCmd])
          else
            let full_info := fullDeviceInfo device_id device prop
            (Except.ok full_info, dictInsert cache device_id full_info,
              [Cmd.listDevicesCmd,
               Cmd.getprop device_id "ro.product.model",
               Cmd.getprop device_id "ro.product.manufacturer",
               Cmd.getprop device_id "ro.build.version.release",
               Cmd.getprop device_id "ro.build.version.sdk"])

/-- `ADBClient.invalidate_cache`. -/
def invalidate_cache (cache : List (String × DeviceInfo))
    (device_id : Option String) : List (String × DeviceInfo) :=
  if pyTruthy device_id then dictRemove cache (device_id.getD "") else []

/-- `sorted(set(...))` over package names (Python `sorted` is modelled by
the stable, structurally recursive insertion sort). -/
def pySortedSet (xs : List String) : List String :=
  xs.dedup.insertionSort (fun a b => a ≤ b)

/-- `ADBClient.list_packages` — oracle `runOut` gives each subcommand's
stdout; returns the package list and the trace of issued subcommands. -/
def list_packages (runOut : List String → String) (system_apps user_apps : Bool) :
    List String × List (List String) :=
  let sysArgs := ["shell", "pm", "list", "packages", "-s"]
  let usrArgs := ["shell", "pm", "list", "packages", "-3"]
  let s := if system_apps then (parse_packages_output (runOut sysArgs), [sysArgs])
           else ([], [])
  let u := if user_apps then (parse_packages_output (runOut usrArgs), [usrArgs])
           else ([], [])
  (pySortedSet (s.1 ++ u.1), s.2 ++ u.2)

/-- `ADBClient.disable_app` given the outcome of its single `_run` call:
keyword heuristic on success, `ADBCommandError`/`ADBTimeoutError` converted
to `(False, str(e))`, every other exception propagating. -/
def disable_app (runOutcome : Except ADBErr (String × String)) :
    Except ADBErr (Bool × Option String) :=
  match runOutcome with
  | Except.ok (stdout, stderr) =>
      let output := stdout ++ stderr
      if pyIn "disabled" (pyLower output) || pyIn "new state" (pyLower output) then
        Except.ok (true, none)
      else if pyIn "error" (pyLower output) || pyIn "exception" (pyLower output) then
        Except.ok (false, some (pyStrip output))
      else Except.ok (true, none)
  | Except.error (ADBErr.commandError msg) => Except.ok (false, some msg)
  | Except.error (ADBErr.timeoutError msg) => Except.ok (false, some msg)
  | Except.error e => Except.error e

/-- `ADBClient.enable_app` given the outcome of its single `_run` call. -/
def enable_app (runOutcome : Except ADBErr (String × String)) :
    Except ADBErr (Bool × Option String) :=
  match runOutcome with
  | Except.ok (stdout, stderr) =>
      let output := stdout ++ stderr
      if pyIn "enabled" (pyLower output) || pyIn "new state" (pyLower output) then
        Except.ok (true, none)
      else if pyIn "error" (pyLower output) || pyIn "exception" (pyLower output) then
        Except.ok (false, some (pyStrip output))
      else Except.ok (true, none)
  | Except.error (ADBErr.commandError msg) => Except.ok (false, some msg)
  | Except.error (ADBErr.timeoutError msg) => Except.ok (false, some msg)
  | Except.error e => Except.error e

/-- Inner user loop of `enable_disable_apps` for one package: aggregate
`(all_success, last_error)` plus the trace of `(package, user_id)` action
calls, in order. -/
def perPackage (act : String → Int → Bool × Option String) (package : String)
    (user_ids : List Int) : (Bool × Option String) × List (String × Int) :=
  user_ids.foldl
    (fun acc u =>
      let r := act package u
      ((if r.1 = false then (false, r.2) else acc.1), acc.2 ++ [(package, u)]))
    ((true, none), [])

/-- Outer package loop of `enable_disable_apps`, accumulating the results
dict and the action-call trace. -/
def bulkLoop (act : String → Int → Bool × Option String) (user_ids : List Int) :
    List String →
    (List (String × (Bool × Option String)) × List (String × Int)) →
    List (String × (Bool × Option String)) × List (String × Int)
  | [], acc => acc
  | p :: ps, acc =>
      let r := perPackage act p user_ids
      bulkLoop act user_ids ps (dictInsert acc.1 p r.1, acc.2 ++ r.2)

/-- `ADBClient.enable_disable_apps` — the single-package operations are
oracle parameters `(device_id, package, user_id) ↦ (success, error)`;
`list_users_result` is what the inner `list_users` call would return.
Returns the results dict and the trace of single-package action calls. -/
def enable_disable_apps
    (enableAct disableAct : String → String → Int → Bool × Option String)
    (list_users_result : List Int) (device_id : String)
    (packages : List String) (enable : Bool)
    (user_ids_arg : Option (List Int)) :
    List (String × (Bool × Option String)) × List (String × Int) :=
  let user_ids :=
    match user_ids_arg with
    | none => if list_users_result.isEmpty then [0] else list_users_result
    | some us => us
  let act := if enable then enableAct device_id else disableAct device_id
  bulkLoop act user_ids packages ([], [])

/-- Ordering used by `list_apps`'s final sort (key: lowercase package
name). -/
def appRel (a b : AppInfo) : Prop :=
  pyLower a.package_name ≤ pyLower b.package_name

instance : DecidableRel appRel :=
  fun a b =>
    inferInstanceAs (Decidable (pyLower a.package_name ≤ pyLower b.package_name))

instance : IsTotal AppInfo appRel :=
  ⟨fun a b => le_total (pyLower a.package_name) (pyLower b.package_name)⟩

instance : IsTrans AppInfo appRel :=
  ⟨fun _ _ _ h₁ h₂ => le_trans h₁ h₂⟩

/-- `list_apps`'s fan-in loop over the completion order: each completed
package bumps the counter and fires the progress callback; failed fetches
(`none`) are dropped. -/
def listAppsLoop (appInfoOf : String → Option AppInfo) (total : Nat) :
    List String → Nat → List AppInfo × List (String × Nat × Nat)
  | [], _ => ([], [])
  | pkg :: rest, completed =>
      let completedNow := completed + 1
      let tail := listAppsLoop appInfoOf total rest completedNow
      ((match appInfoOf pkg with
        | some info => info :: tail.1
        | none => tail.1),
       (pkg, completedNow, total) :: tail.2)

/-- `ADBClient.list_apps` — `appInfoOf` is the per-package `get_app_info`
oracle (`none` = the fetch raised and is dropped); `order` is the
worker-pool completion order (any permutation of `packages`).  Returns the
sorted application list and the progress-callback trace. -/
def list_apps (appInfoOf : String → Option AppInfo) (packages : List String)
    (order : List String) : List AppInfo × List (String × Nat × Nat) :=
  let r := listAppsLoop appInfoOf packages.length order 0
  (r.1.insertionSort appRel, r.2)

/-! ## Claim-side (specification) definitions used for refinement claims -/

/-- Claim-side profile resolution for the bulk operation: the supplied
list, else the device's listed profiles, else `[0]`. -/
def resolveUserIds (supplied : Option (List Int)) (device_users : List Int) :
    List Int :=
  match supplied with
  | some us => us
  | none => if device_users = [] then [0] else device_users

/-- Claim-side per-package aggregate: success is the logical AND of the
per-profile successes, and the error message is the last failing profile's
message (`none` when every profile succeeded). -/
def aggregateSpec (act : String → Int → Bool × Option String) (package : String)
    (user_ids : List Int) : Bool × Option String :=
  (user_ids.all (fun u => (act package u).1),
   ((user_ids.filter (fun u => !(act package u).1)).getLast?).bind
     (fun u => (act package u).2))

/-! ## Theorems -/

/-- All per-profile calls succeed iff no profile is in the failure
filter. -/
theorem all_iff_filter_nil (act : String → Int → Bool × Option String)
    (p : String) (us : List Int) :
    us.all (fun u => (act p u).1) = true
      ↔ us.filter (fun u => !(act p u).1) = [] := by
  simp [List.all_eq_true, List.filter_eq_nil_iff]

/-- Closed form of `perPackage`'s fold for an arbitrary initial
accumulator. -/
theorem perPackage_go (act : String → Int → Bool × Option String) (p : String) :
    ∀ (us : List Int) (b : Bool × Option String) (tr : List (String × Int)),
      us.foldl (fun acc u =>
        let r := act p u
        ((if r.1 = false then (false, r.2) else acc.1), acc.2 ++ [(p, u)])) (b, tr)
      = ((if us.all (fun u => (act p u).1) = true then b
          else (false,
            ((us.filter (fun u => !(act p u).1)).getLast?).bind
              (fun u => (act p u).2))),
         tr ++ us.map (fun u => (p, u))) := by
  intro us
  induction us with
  | nil => intro b tr; simp
  | cons u us ih =>
      intro b tr
      rw [List.foldl_cons]
      cases hau : (act p u).1 with
      | true =>
          rw [ih]
          simp [hau]
      | false =>
          rw [ih]
          by_cases hrest : us.all (fun u => (act p u).1) = true
          · have hfil : us.filter (fun u => !(act p u).1) = [] :=
              (all_iff_filter_nil act p us).mp hrest
            simp [hau, hrest, hfil]
          · have hfil : us.filter (fun u => !(act p u).1) ≠ [] := by
              intro hnil
              exact hrest ((all_iff_filter_nil act p us).mpr hnil)
            rcases List.exists_cons_of_ne_nil hfil with ⟨v, l, hvl⟩
            simp [hau, hrest, hvl, List.getLast?_cons_cons]

/-- `perPackage` computes the claim-side aggregate and calls the action
once per profile, in input order. -/
theorem perPackage_eq (act : String → Int → Bool × Option String) (p : String)
    (us : List Int) :
    perPackage act p us = (aggregateSpec act p us, us.map (fun u => (p, u))) := by
  unfold perPackage aggregateSpec
  rw [perPackage_go act p us (true, none) []]
  by_cases hall : us.all (fun u => (act p u).1) = true
  · have hfil : us.filter (fun u => !(act p u).1) = [] :=
      (all_iff_filter_nil act p us).mp hall
    simp [hall, hfil]
  · simp [hall, Bool.eq_false_iff.mpr hall]

/-- Looking up the just-updated key returns the new value (worker for the
overwrite branch). -/
theorem dictGet_map_update_self {α : Type} (k : String) (v : α) :
    ∀ d : List (String × α),
      dictGet (d.map (fun kv => if kv.1 == k then (k, v) else kv)) k
        = if d.any (fun kv => kv.1 == k) then some v else none := by
  intro d
  induction d with
  | nil => rfl
  | cons a d ih =>
      cases hk : (a.1 == k) with
      | true =>
          simp only [List.map_cons, if_pos hk, List.any_cons, hk, Bool.true_or,
            if_pos]
          unfold dictGet
          rw [List.find?_cons]
          simp
      | false =>
          simp only [List.map_cons, hk, Bool.false_eq_true, if_false,
            List.any_cons, Bool.false_or]
          unfold dictGet at ih ⊢
          rw [List.find?_cons]
          simp only [hk]
          exact ih

/-- Looking up a different key is unchanged by the overwrite branch. -/
theorem dictGet_map_update_ne {α : Type} (k k' : String) (v : α)
    (hne : k' ≠ k) :
    ∀ d : List (String × α),
      dictGet (d.map (fun kv => if kv.1 == k then (k, v) else kv)) k'
        = dictGet d k' := by
  intro d
  induction d with
  | nil => rfl
  | cons a d ih =>
      cases hk : (a.1 == k) with
      | true =>
          have hak : a.1 = k := eq_of_beq hk
          have hkk' : (k == k') = false := beq_eq_false_iff_ne.mpr (Ne.symm hne)
          simp only [List.map_cons, if_pos hk]
          unfold dictGet at ih ⊢
          rw [List.find?_cons, List.find?_cons]
          simp only [hak, hkk']
          exact ih
      | false =>
          simp only [List.map_cons, hk, Bool.false_eq_true, if_false]
          unfold dictGet at ih ⊢
          rw [List.find?_cons, List.find?_cons]
          cases hk' : (a.1 == k') with
          | true => rfl
          | false => exact ih

/-- Inserting a key makes it retrievable with the inserted value. -/
theorem dictGet_dictInsert_self {α : Type} (d : List (String × α)) (k : String)
    (v : α) : dictGet (dictInsert d k v) k = some v := by
  unfold dictInsert
  by_cases h : d.any (fun kv => kv.1 == k) = true
  · rw [if_pos h, dictGet_map_update_self, if_pos h]
  · rw [if_neg h]
    have hnone : d.find? (fun kv => kv.1 == k) = none := by
      rw [List.find?_eq_none]
      intro x hx hpx
      exact h (List.any_eq_true.mpr ⟨x, hx, hpx⟩)
    unfold dictGet
    rw [List.find?_append, hnone]
    simp only [Option.none_or]
    rw [List.find?_cons]
    simp

/-- Inserting one key leaves other keys' lookups unchanged. -/
theorem dictGet_dictInsert_ne {α : Type} (d : List (String × α))
    (k k' : String) (v : α) (hne : k' ≠ k) :
    dictGet (dictInsert d k v) k' = dictGet d k' := by
  unfold dictInsert
  by_cases h : d.any (fun kv => kv.1 == k) = true
  · rw [if_pos h, dictGet_map_update_ne k k' v hne]
  · rw [if_neg h]
    unfold dictGet
    have hsingle : List.find? (fun kv => kv.1 == k') [(k, v)] = none := by
      rw [List.find?_eq_none]
      intro x hx hpx
      have hxkv : x = (k, v) := List.mem_singleton.mp hx
      subst hxkv
      exact hne (eq_of_beq hpx).symm
    rw [List.find?_append, hsingle]
    cases List.find? (fun kv => kv.1 == k') d <;> rfl

/-- Closed form of `bulkLoop`: the results dict is built by inserting each
package's claim-side aggregate, and the trace is the packages-outer,
profiles-inner product in input order. -/
theorem bulkLoop_eq (act : String → Int → Bool × Option String)
    (user_ids : List Int) :
    ∀ (ps : List String) (res : List (String × (Bool × Option String)))
      (tr : List (String × Int)),
      bulkLoop act user_ids ps (res, tr)
        = (ps.foldl (fun d p => dictInsert d p (aggregateSpec act p user_ids)) res,
           tr ++ ps.flatMap (fun p => user_ids.map (fun u => (p, u)))) := by
  intro ps
  induction ps with
  | nil => intro res tr; simp [bulkLoop]
  | cons p ps ih =>
      intro res tr
      have hstep : bulkLoop act user_ids (p :: ps) (res, tr)
          = bulkLoop act user_ids ps
              (dictInsert res p (perPackage act p user_ids).1,
                tr ++ (perPackage act p user_ids).2) := rfl
      rw [hstep, perPackage_eq, ih]
      simp [List.flatMap_cons]

/-- Lookup after the fold over packages: any processed package maps to its
aggregate (packages not yet processed fall back to the incoming dict). -/
theorem bulk_foldl_lookup (act : String → Int → Bool × Option String)
    (user_ids : List Int) :
    ∀ (ps : List String) (res : List (String × (Bool × Option String)))
      (p : String),
      (p ∈ ps ∨ dictGet res p = some (aggregateSpec act p user_ids)) →
      dictGet (ps.foldl (fun d q => dictInsert d q (aggregateSpec act q user_ids)) res) p
        = some (aggregateSpec act p user_ids) := by
  intro ps
  induction ps with
  | nil =>
      intro res p hp
      rcases hp with hp | hp
      · cases hp
      · exact hp
  | cons q ps ih =>
      intro res p hp
      rw [List.foldl_cons]
      by_cases hpq : p = q
      · subst hpq
        by_cases hmem : p ∈ ps
        · exact ih _ p (Or.inl hmem)
        · refine ih _ p (Or.inr ?_)
          exact dictGet_dictInsert_self res p _
      · rcases hp with hp | hp
        · rcases List.mem_cons.mp hp with rfl | hmem
          · exact absurd rfl hpq
          · exact ih _ p (Or.inl hmem)
        · refine ih _ p (Or.inr ?_)
          rw [dictGet_dictInsert_ne res q p _ hpq]
          exact hp

/-- C1: `enable_disable_apps` resolves the target profiles as the supplied
list, else the device's listed profiles, else `[0]`; applies the selected
single-package operation exactly once per `(package, profile)` pair,
strictly sequentially with packages outer and profiles inner in input-list
order (the call trace is exactly that product); and maps each package to
the aggregate whose success is the AND of the per-profile successes and
whose error is the last failing profile's message (`none` when every
profile succeeded).  No other calls occur, hence no rollback of profiles
already changed. -/
theorem claim_C1_enable_disable_apps
    (enableAct disableAct : String → String → Int → Bool × Option String)
    (list_users_result : List Int) (device_id : String)
    (packages : List String) (enable : Bool)
    (user_ids_arg : Option (List Int)) :
    (enable_disable_apps enableAct disableAct list_users_result device_id
        packages enable user_ids_arg).2
      = packages.flatMap (fun p =>
          (resolveUserIds user_ids_arg list_users_result).map (fun u => (p, u)))
    ∧ ∀ p ∈ packages,
        dictGet (enable_disable_apps enableAct disableAct list_users_result
            device_id packages enable user_ids_arg).1 p
          = some (aggregateSpec
              (if enable then enableAct device_id else disableAct device_id) p
              (resolveUserIds user_ids_arg list_users_result)) := by
  have hresolve :
      (match user_ids_arg with
        | none => if list_users_result.isEmpty then [0] else list_users_result
        | some us => us)
      = resolveUserIds user_ids_arg list_users_result := by
    unfold resolveUserIds
    cases user_ids_arg with
    | none => cases list_users_result <;> simp
    | some us => rfl
  have hmain : enable_disable_apps enableAct disableAct list_users_result
      device_id packages enable user_ids_arg
      = bulkLoop (if enable then enableAct device_id else disableAct device_id)
          (resolveUserIds user_ids_arg list_users_result) packages ([], []) := by
    unfold enable_disable_apps
    rw [hresolve]
  rw [hmain,
    bulkLoop_eq (if enable then enableAct device_id else disableAct device_id)
      (resolveUserIds user_ids_arg list_users_result) packages [] []]
  refine ⟨by simp, fun p hp => ?_⟩
  exact bulk_foldl_lookup _ _ packages [] p (Or.inl hp)

/-- Removing a key makes its lookup miss. -/
theorem dictGet_dictRemove_self {α : Type} (d : List (String × α)) (k : String) :
    dictGet (dictRemove d k) k = none := by
  unfold dictGet dictRemove
  have : List.find? (fun kv => kv.1 == k) (d.filter (fun kv => kv.1 != k)) = none := by
    rw [List.find?_eq_none]
    intro x hx
    have hmem := List.mem_filter.mp hx
    simpa using hmem.2
  rw [this]
  rfl

/-- Reduction of `get_device_info` on the fetch path: no usable cache
entry, the device found in the fresh listing and ready. -/
theorem get_device_info_fetch (ldr : List DeviceInfo) (prop : String → String)
    (cache : List (String × DeviceInfo)) (device_id : String)
    (device : DeviceInfo)
    (hmiss : ∀ c, dictGet cache device_id = some c → ¬ 0 < c.sdk_level)
    (hfind : ldr.find? (fun d => d.device_id == device_id) = some device)
    (hready : device.is_ready = true) :
    get_device_info ldr prop cache device_id false
      = (Except.ok (fullDeviceInfo device_id device prop),
         dictInsert cache device_id (fullDeviceInfo device_id device prop),
         [Cmd.listDevicesCmd,
          Cmd.getprop device_id "ro.product.model",
          Cmd.getprop device_id "ro.product.manufacturer",
          Cmd.getprop device_id "ro.build.version.release",
          Cmd.getprop device_id "ro.build.version.sdk"]) := by
  unfold get_device_info
  rcases hget : dictGet cache device_id with _ | c
  · simp [hget, hfind, hready]
  · have hc := hmiss c hget
    simp [hget, hfind, hready, hc]

/-- C5: with `force_refresh = false`, a cache entry with positive sdk level
short-circuits — the cached record is returned unchanged, the cache is
untouched and no subcommand is issued; otherwise, after a successful
ready-device property fetch (sdk parsing to a positive level), the
constructed record is stored in the cache before return, a second call
returns the identical object with no further subcommands, and invalidating
the entry makes the next call issue the four property subcommands again. -/
theorem claim_C5_get_device_info (ldr : List DeviceInfo)
    (prop : String → String) (cache : List (String × DeviceInfo))
    (device_id : String) :
    (∀ cached, dictGet cache device_id = some cached → 0 < cached.sdk_level →
        get_device_info ldr prop cache device_id false
          = (Except.ok cached, cache, []))
    ∧ (∀ device,
        (∀ c, dictGet cache device_id = some c → ¬ 0 < c.sdk_level) →
        ldr.find? (fun d => d.device_id == device_id) = some device →
        device.is_ready = true →
        0 < (fullDeviceInfo device_id device prop).sdk_level →
        get_device_info ldr prop cache device_id false
            = (Except.ok (fullDeviceInfo device_id device prop),
               dictInsert cache device_id (fullDeviceInfo device_id device prop),
               [Cmd.listDevicesCmd,
                Cmd.getprop device_id "ro.product.model",
                Cmd.getprop device_id "ro.product.manufacturer",
                Cmd.getprop device_id "ro.build.version.release",
                Cmd.getprop device_id "ro.build.version.sdk"])
          ∧ get_device_info ldr prop
              (dictInsert cache device_id (fullDeviceInfo device_id device prop))
              device_id false
              = (Except.ok (fullDeviceInfo device_id device prop),
                 dictInsert cache device_id (fullDeviceInfo device_id device prop),
                 [])
          ∧ get_device_info ldr prop
              (invalidate_cache
                (dictInsert cache device_id (fullDeviceInfo device_id device prop))
                (some device_id))
              device_id false
              = (Except.ok (fullDeviceInfo device_id device prop),
                 dictInsert
                   (invalidate_cache
                     (dictInsert cache device_id (fullDeviceInfo device_id device prop))
                     (some device_id))
                   device_id (fullDeviceInfo device_id device prop),
                 [Cmd.listDevicesCmd,
                  Cmd.getprop device_id "ro.product.model",
                  Cmd.getprop device_id "ro.product.manufacturer",
                  Cmd.getprop device_id "ro.build.version.release",
                  Cmd.getprop device_id "ro.build.version.sdk"])) := by
  constructor
  · intro cached hget hsdk
    unfold get_device_info
    simp [hget, hsdk]
  · intro device hmiss hfind hready hsdk
    refine ⟨get_device_info_fetch ldr prop cache device_id device hmiss hfind hready,
            ?_, ?_⟩
    · unfold get_device_info
      simp [dictGet_dictInsert_self, hsdk]
    · refine get_device_info_fetch ldr prop _ device_id device ?_ hfind hready
      intro c hc
      unfold invalidate_cache at hc
      by_cases htr : pyTruthy (some device_id) = true
      · rw [if_pos htr] at hc
        simp only [Option.getD_some] at hc
        rw [dictGet_dictRemove_self] at hc
        cases hc
      · rw [if_neg htr] at hc
        cases hc

/-- C5 witness at a concrete scenario: one ready device `ABC123`, property
map giving sdk 33; first call fetches and caches, second call is served
from cache with no subcommands, and after invalidation the third call
issues the four property subcommands again. -/
theorem claim_C5_get_device_info_witness :
    get_device_info [{ device_id := "ABC123", state := DeviceState.DEVICE }]
        (fun p => if p = "ro.build.version.sdk" then "33" else "X") [] "ABC123" false
      = (Except.ok (fullDeviceInfo "ABC123"
            { device_id := "ABC123", state := DeviceState.DEVICE }
            (fun p => if p = "ro.build.version.sdk" then "33" else "X")),
         dictInsert [] "ABC123" (fullDeviceInfo "ABC123"
            { device_id := "ABC123", state := DeviceState.DEVICE }
            (fun p => if p = "ro.build.version.sdk" then "33" else "X")),
         [Cmd.listDevicesCmd,
          Cmd.getprop "ABC123" "ro.product.model",
          Cmd.getprop "ABC123" "ro.product.manufacturer",
          Cmd.getprop "ABC123" "ro.build.version.release",
          Cmd.getprop "ABC123" "ro.build.version.sdk"])
    ∧ get_device_info [{ device_id := "ABC123", state := DeviceState.DEVICE }]
        (fun p => if p = "ro.build.version.sdk" then "33" else "X")
        (dictInsert [] "ABC123" (fullDeviceInfo "ABC123"
            { device_id := "ABC123", state := DeviceState.DEVICE }
            (fun p => if p = "ro.build.version.sdk" then "33" else "X")))
        "ABC123" false
      = (Except.ok (fullDeviceInfo "ABC123"
            { device_id := "ABC123", state := DeviceState.DEVICE }
            (fun p => if p = "ro.build.version.sdk" then "33" else "X")),
         dictInsert [] "ABC123" (fullDeviceInfo "ABC123"
            { device_id := "ABC123", state := DeviceState.DEVICE }
            (fun p => if p = "ro.build.version.sdk" then "33" else "X")),
         []) :=
  ⟨((claim_C5_get_device_info
      [{ device_id := "ABC123", state := DeviceState.DEVICE }]
      (fun p => if p = "ro.build.version.sdk" then "33" else "X") [] "ABC123").2
      { device_id := "ABC123", state := DeviceState.DEVICE }
      (by intro c hc; cases hc) (by decide) (by decide) (by decide)).1,
   ((claim_C5_get_device_info
      [{ device_id := "ABC123", state := DeviceState.DEVICE }]
      (fun p => if p = "ro.build.version.sdk" then "33" else "X") [] "ABC123").2
      { device_id := "ABC123", state := DeviceState.DEVICE }
      (by intro c hc; cases hc) (by decide) (by decide) (by decide)).2.1⟩

/-- C1 witness at a concrete run: two packages over the default-profile
fallback (empty device listing resolves to `[0]`) and over supplied
profiles `[0, 10]` where profile 10 fails: the trace is the strict
packages-outer product and the failing profile's message wins. -/
theorem claim_C1_enable_disable_apps_witness :
    (enable_disable_apps
        (fun _ p u => (decide (u < 10), some (p ++ "!"))) (fun _ _ _ => (true, none))
        [] "dev" ["p1", "p2"] true (some [0, 10])).2
      = [("p1", 0), ("p1", 10), ("p2", 0), ("p2", 10)]
    ∧ dictGet (enable_disable_apps
        (fun _ p u => (decide (u < 10), some (p ++ "!"))) (fun _ _ _ => (true, none))
        [] "dev" ["p1", "p2"] true (some [0, 10])).1 "p1"
      = some (false, some "p1!")
    ∧ (enable_disable_apps
        (fun _ _ _ => (true, none)) (fun _ _ _ => (true, none))
        [] "dev" ["p1"] false none).2
      = [("p1", 0)] := by
  refine ⟨?_, ?_, ?_⟩
  · have h := (claim_C1_enable_disable_apps
      (fun _ p u => (decide (u < 10), some (p ++ "!"))) (fun _ _ _ => (true, none))
      [] "dev" ["p1", "p2"] true (some [0, 10])).1
    rw [h]; decide
  · have h := (claim_C1_enable_disable_apps
      (fun _ p u => (decide (u < 10), some (p ++ "!"))) (fun _ _ _ => (true, none))
      [] "dev" ["p1", "p2"] true (some [0, 10])).2 "p1" (by decide)
    rw [h]; decide
  · have h := (claim_C1_enable_disable_apps
      (fun _ _ _ => (true, none)) (fun _ _ _ => (true, none))
      [] "dev" ["p1"] false none).1
    rw [h]; decide

/-- C10: `list_packages` with both `system_apps = false` and
`user_apps = false` returns the empty list and issues no subcommands,
for every runner oracle. -/
theorem claim_C10_list_packages_no_flags (runOut : List String → String) :
    list_packages runOut false false = ([], []) := by
  rfl

/-- C6 (code bug): `parse_du_output` is not total.  On an input whose first
token matches the numeric regex group but is not a valid float literal
(`"1.2.3"`), the Python code raises `ValueError` from `float()` (`none`
here), contradicting the claim that every input yields a float and
unparseable input yields `0.0`.  Ordinary inputs behave as claimed:
empty and unmatched input give `0.0`, and `"512K"` gives `0.51`. -/
theorem claim_C6_parse_du_output_raises :
    parse_du_output "1.2.3\t/x" = none
      ∧ parse_du_output "" = some (mkRat 0 100)
      ∧ parse_du_output "garbage" = some (mkRat 0 100)
      ∧ parse_du_output "512K\t/x" = some (mkRat 51 100)
      ∧ parse_du_output "1.5G\t/x" = some (mkRat 1536 1) := by
  refine ⟨by decide, by decide, by decide, by decide, by decide⟩

/-- C9: `list_devices` is not total over parseable bridge output: a
device-listing line with a non-numeric `transport_id:<v>` property makes
the `int` conversion raise an unclassified `ValueError` (here an
`Except.error` of the raw-`ValueError` type `String`, not of the `ADBErr`
taxonomy), while an absent `transport_id` property defaults to `0`. -/
theorem claim_C9_list_devices_transport_id :
    list_devices "List of devices attached\ndev1 device transport_id:abc\n" [] false
        = Except.error "invalid literal for int() with base 10: abc"
      ∧ list_devices "List of devices attached\ndev1 device\n" [] false
        = Except.ok [{ device_id := "dev1", state := DeviceState.DEVICE,
                       transport_id := 0 }] := by
  refine ⟨by decide, by decide⟩

/-- C8 counterexample: the claim says `parse_users_output` returns the ids
of all `UserInfo\x7b<id>:` substrings, so text containing both
`UserInfo\x7b0:Owner:4c13\x7d` and `UserInfo\x7b10:Work:30\x7d` should
yield `[0, 10]`; but when both fragments sit on one line the code's
per-line `re.search` finds only the first, yielding `[0]`. -/
theorem claim_C8_counterexample :
    parse_users_output "UserInfo\x7b0:Owner:4c13\x7d UserInfo\x7b10:Work:30\x7d" = [0]
      ∧ parse_users_output "UserInfo\x7b0:Owner:4c13\x7d UserInfo\x7b10:Work:30\x7d"
          ≠ [0, 10] := by
  refine ⟨by decide, by decide⟩

/-- C8 (amended): `parse_users_output` returns, for each line of the input,
the id of the line's first `UserInfo\x7b<id>:` match, in line order — hence
at most one id per line; on the two fragments on separate lines it returns
`[0, 10]` in that order, and it does not assume id 0 is present. -/
theorem claim_C8_amended :
    (∀ output : String,
        (parse_users_output output).length ≤ (pySplitLines (pyStrip output)).length)
      ∧ parse_users_output "UserInfo\x7b0:Owner:4c13\x7d\nUserInfo\x7b10:Work:30\x7d"
          = [0, 10]
      ∧ parse_users_output "Users:\n\tUserInfo\x7b10:Work:30\x7d" = [10] := by
  refine ⟨fun output => ?_, by decide, by decide⟩
  exact List.length_filterMap_le _ _

/-- C3 counterexample: the single-package operation is claimed never to
raise, but a runner failure classified as a permission error (non-zero exit
with `permission denied` on stderr) propagates out of `disable_app`
uncaught.  The run outcome below is exactly what `_run` produces for the
`pm disable-user` command line on such a subprocess result. -/
theorem claim_C3_counterexample :
    disable_app (adbRun "adb" ["shell", "pm", "disable-user", "--user", "0", "com.x"]
        (some "dev1") "10.0" (ProcOutcome.completed 1 "" "Permission denied"))
      = Except.error (mkPermissionErr "shell pm" "dev1") := by
  decide

/-- C3 (amended): `CommandFailed` and `Timeout` failures from the runner are
caught locally by the single-package enable/disable operation and converted
to `(false, str(e))`; the remaining runner failure kinds
(device-disconnected, device-not-found, permission-denied) propagate
uncaught. -/
theorem claim_C3_amended (msg : String) :
    disable_app (Except.error (ADBErr.commandError msg)) = Except.ok (false, some msg)
      ∧ disable_app (Except.error (ADBErr.timeoutError msg)) = Except.ok (false, some msg)
      ∧ enable_app (Except.error (ADBErr.commandError msg)) = Except.ok (false, some msg)
      ∧ enable_app (Except.error (ADBErr.timeoutError msg)) = Except.ok (false, some msg)
      ∧ disable_app (Except.error (ADBErr.permissionError msg))
          = Except.error (ADBErr.permissionError msg)
      ∧ disable_app (Except.error (ADBErr.deviceDisconnected msg))
          = Except.error (ADBErr.deviceDisconnected msg)
      ∧ disable_app (Except.error (ADBErr.deviceNotFound msg))
          = Except.error (ADBErr.deviceNotFound msg)
      ∧ enable_app (Except.error (ADBErr.permissionError msg))
          = Except.error (ADBErr.permissionError msg)
      ∧ enable_app (Except.error (ADBErr.deviceDisconnected msg))
          = Except.error (ADBErr.deviceDisconnected msg)
      ∧ enable_app (Except.error (ADBErr.deviceNotFound msg))
          = Except.error (ADBErr.deviceNotFound msg) := by
  exact ⟨rfl, rfl, rfl, rfl, rfl, rfl, rfl, rfl, rfl, rfl⟩

/-- C7 counterexample: the claim's success-keyword set includes `"enabled"`
for the single-package operation regardless of direction, with success
keywords taking precedence over failure keywords; but `disable_app` on a
zero-exit output containing both `enabled` and `error` takes the failure
branch, returning `(False, <trimmed output>)` instead of `(True, None)`. -/
theorem claim_C7_counterexample :
    disable_app (Except.ok ("enabled error", "")) = Except.ok (false, some "enabled error")
      ∧ disable_app (Except.ok ("enabled error", "")) ≠ Except.ok (true, none) := by
  refine ⟨by decide, by decide⟩

/-- C7 (amended): for every zero-exit output, success is decided by
case-insensitive keyword inspection of the combined stdout+stderr, with the
operation's own success keywords — `disabled`/`new state` for the disable
direction, `enabled`/`new state` for the enable direction — taking
precedence over the failure keywords `error`/`exception`; a failure keyword
without a success keyword yields `(false, trimmed output)`; and with no
keyword at all the result is `(true, none)` — success is assumed. -/
theorem claim_C7_amended (stdout stderr : String) :
    ((pyIn "disabled" (pyLower (stdout ++ stderr))
        || pyIn "new state" (pyLower (stdout ++ stderr))) = true →
      disable_app (Except.ok (stdout, stderr)) = Except.ok (true, none))
    ∧ ((pyIn "disabled" (pyLower (stdout ++ stderr))
          || pyIn "new state" (pyLower (stdout ++ stderr))) = false →
        (pyIn "error" (pyLower (stdout ++ stderr))
          || pyIn "exception" (pyLower (stdout ++ stderr))) = true →
        disable_app (Except.ok (stdout, stderr))
          = Except.ok (false, some (pyStrip (stdout ++ stderr))))
    ∧ ((pyIn "disabled" (pyLower (stdout ++ stderr))
          || pyIn "new state" (pyLower (stdout ++ stderr))) = false →
        (pyIn "error" (pyLower (stdout ++ stderr))
          || pyIn "exception" (pyLower (stdout ++ stderr))) = false →
        disable_app (Except.ok (stdout, stderr)) = Except.ok (true, none))
    ∧ ((pyIn "enabled" (pyLower (stdout ++ stderr))
          || pyIn "new state" (pyLower (stdout ++ stderr))) = true →
        enable_app (Except.ok (stdout, stderr)) = Except.ok (true, none))
    ∧ ((pyIn "enabled" (pyLower (stdout ++ stderr))
          || pyIn "new state" (pyLower (stdout ++ stderr))) = false →
        (pyIn "error" (pyLower (stdout ++ stderr))
          || pyIn "exception" (pyLower (stdout ++ stderr))) = true →
        enable_app (Except.ok (stdout, stderr))
          = Except.ok (false, some (pyStrip (stdout ++ stderr))))
    ∧ ((pyIn "enabled" (pyLower (stdout ++ stderr))
          || pyIn "new state" (pyLower (stdout ++ stderr))) = false →
        (pyIn "error" (pyLower (stdout ++ stderr))
          || pyIn "exception" (pyLower (stdout ++ stderr))) = false →
        enable_app (Except.ok (stdout, stderr)) = Except.ok (true, none)) := by
  refine ⟨fun h => ?_, fun h₁ h₂ => ?_, fun h₁ h₂ => ?_,
          fun h => ?_, fun h₁ h₂ => ?_, fun h₁ h₂ => ?_⟩ <;>
    simp only [disable_app, enable_app] <;>
    simp [*]

/-- C7 amended-claim witness at concrete outputs: a success keyword with a
failure keyword still succeeds for the matching direction; a failure
keyword alone fails with the trimmed output; no keyword is assumed
success. -/
theorem claim_C7_amended_witness :
    disable_app (Except.ok ("Package new state: disabled error", ""))
        = Except.ok (true, none)
      ∧ disable_app (Except.ok (" some error ", ""))
          = Except.ok (false, some (pyStrip (" some error " ++ "")))
      ∧ enable_app (Except.ok ("done", "")) = Except.ok (true, none) :=
  ⟨(claim_C7_amended "Package new state: disabled error" "").1 (by decide),
   (claim_C7_amended " some error " "").2.1 (by decide) (by decide),
   (claim_C7_amended "done" "").2.2.2.2.2 (by decide) (by decide)⟩

/-- The applications collected by `list_apps`'s fan-in loop are exactly the
successful fetches, in completion order. -/
theorem listAppsLoop_fst (f : String → Option AppInfo) (total : Nat) :
    ∀ (order : List String) (c : Nat),
      (listAppsLoop f total order c).1 = order.filterMap f := by
  intro order
  induction order with
  | nil => intro c; rfl
  | cons pkg rest ih =>
      intro c
      cases hf : f pkg <;> simp [listAppsLoop, hf, List.filterMap_cons, ih]

/-- The progress callbacks fired by `list_apps`'s fan-in loop: one per
completed package, in completion order, with the running count and the
total. -/
theorem listAppsLoop_snd (f : String → Option AppInfo) (total : Nat) :
    ∀ (order : List String) (c : Nat),
      (listAppsLoop f total order c).2
        = (List.enumFrom (c + 1) order).map (fun pr => (pr.2, pr.1, total)) := by
  intro order
  induction order with
  | nil => intro c; rfl
  | cons pkg rest ih =>
      intro c
      cases hf : f pkg <;> simp [listAppsLoop, hf, List.enumFrom, ih]

/-- Dropped entries account exactly for the length difference of a
`filterMap`. -/
theorem length_filterMap_add_countP {α β : Type} (f : α → Option β) :
    ∀ l : List α,
      (l.filterMap f).length + l.countP (fun a => (f a).isNone) = l.length := by
  intro l
  induction l with
  | nil => rfl
  | cons a l ih =>
      cases hfa : f a with
      | none =>
          simp only [List.filterMap_cons, hfa, List.countP_cons, List.length_cons,
            Option.isNone_none, if_true]
          omega
      | some b =>
          simp only [List.filterMap_cons, hfa, List.countP_cons, List.length_cons,
            Option.isNone_some, Bool.false_eq_true, if_false]
          omega

/-- C2: for every completion order (any permutation of the package list)
and any per-package oracle failing on exactly one entry of the list,
`list_apps` returns exactly `N - 1` application records, sorted by
lowercase package name and a permutation of the successful fetches; the
progress callback fires exactly `N` times, once per completed package in
completion order, with `(packageName, completedCount, totalCount)`. -/
theorem claim_C2_list_apps (f : String → Option AppInfo)
    (packages order : List String)
    (hperm : order.Perm packages)
    (hone : packages.countP (fun p => (f p).isNone) = 1) :
    (list_apps f packages order).1.length = packages.length - 1
    ∧ List.Sorted appRel (list_apps f packages order).1
    ∧ (list_apps f packages order).1.Perm (order.filterMap f)
    ∧ (list_apps f packages order).2
        = (List.enumFrom 1 order).map (fun pr => (pr.2, pr.1, packages.length))
    ∧ (list_apps f packages order).2.length = packages.length := by
  have hfst : (list_apps f packages order).1
      = ((listAppsLoop f packages.length order 0).1).insertionSort appRel := rfl
  have hsnd : (list_apps f packages order).2
      = (listAppsLoop f packages.length order 0).2 := rfl
  have hsortperm : ((listAppsLoop f packages.length order 0).1.insertionSort appRel).Perm
      (order.filterMap f) := by
    rw [listAppsLoop_fst]
    exact List.perm_insertionSort appRel _
  refine ⟨?_, ?_, ?_, ?_, ?_⟩
  · rw [hfst, hsortperm.length_eq]
    have hlen := length_filterMap_add_countP f order
    have hcount : order.countP (fun p => (f p).isNone)
        = packages.countP (fun p => (f p).isNone) := hperm.countP_eq _
    have horder : order.length = packages.length := hperm.length_eq
    omega
  · rw [hfst]
    exact List.sorted_insertionSort appRel _
  · rw [hfst]
    exact hsortperm
  · rw [hsnd, listAppsLoop_snd]
  · rw [hsnd, listAppsLoop_snd, List.length_map, List.enumFrom_length]
    exact hperm.length_eq

/-- C2 witness at a concrete run: three packages where only `"c"`'s fetch
fails, completion order `["c", "a", "b"]`: two records are returned and
three callbacks fire, in completion order with running counts. -/
theorem claim_C2_list_apps_witness :
    (list_apps
        (fun p => if p = "c" then none
          else some { package_name := p, is_system := false, is_enabled := true })
        ["b", "a", "c"] ["c", "a", "b"]).1.length = 3 - 1
    ∧ List.Sorted appRel
        (list_apps
          (fun p => if p = "c" then none
            else some { package_name := p, is_system := false, is_enabled := true })
          ["b", "a", "c"] ["c", "a", "b"]).1
    ∧ (list_apps
        (fun p => if p = "c" then none
          else some { package_name := p, is_system := false, is_enabled := true })
        ["b", "a", "c"] ["c", "a", "b"]).2
      = (List.enumFrom 1 ["c", "a", "b"]).map
          (fun pr => (pr.2, pr.1, (["b", "a", "c"] : List String).length)) := by
  have h := claim_C2_list_apps
    (fun p => if p = "c" then none
      else some { package_name := p, is_system := false, is_enabled := true })
    ["b", "a", "c"] ["c", "a", "b"] (by decide) (by decide)
  exact ⟨h.1, h.2.1, h.2.2.2.1⟩

/-- Completeness of the character-level starts-with test: a genuine list
prefix is accepted. -/
theorem chStartsWith_of_prefix :
    ∀ {n h : List Char}, n <+: h → chStartsWith n h = true := by
  intro n
  induction n with
  | nil => intro h _; rfl
  | cons a as ih =>
      intro h hp
      rcases hp with ⟨t, ht⟩
      subst ht
      simp [chStartsWith, ih ⟨t, rfl⟩]

/-- Completeness of the character-level containment test: a genuine infix
is accepted. -/
theorem chContains_of_infix :
    ∀ {n h : List Char}, n <:+: h → chContains n h = true := by
  intro n h
  induction h with
  | nil =>
      intro hinf
      rw [List.eq_nil_of_infix_nil hinf]
      rfl
  | cons c cs ih =>
      intro hinf
      rcases List.infix_cons_iff.mp hinf with hp | hi
      · simp [chContains, chStartsWith_of_prefix hp]
      · simp [chContains, ih hi]

/-- `pyIn` accepts genuine substrings. -/
theorem pyIn_of_infix {x s : String} (h : x.data <:+: s.data) : pyIn x s = true :=
  chContains_of_infix h

/-- Every element of a joined list is a substring of the join. -/
theorem infix_pyJoin {sep x : String} :
    ∀ {xs : List String}, x ∈ xs → x.data <:+: (pyJoin sep xs).data := by
  intro xs
  induction xs with
  | nil => intro hx; cases hx
  | cons y ys ih =>
      intro hx
      cases ys with
      | nil =>
          have hxy : x = y := List.mem_singleton.mp hx
          subst hxy
          exact List.infix_rfl
      | cons z zs =>
          rcases List.mem_cons.mp hx with rfl | hmem
          · refine List.IsPrefix.isInfix ⟨sep.data ++ (pyJoin sep (z :: zs)).data, ?_⟩
            simp [pyJoin, String.data_append, List.append_assoc]
          · have htail := ih hmem
            have hstep : pyJoin sep (y :: z :: zs)
                = (y ++ sep) ++ pyJoin sep (z :: zs) := rfl
            have hsuf : (pyJoin sep (z :: zs)).data
                <:+ (pyJoin sep (y :: z :: zs)).data := by
              rw [hstep, String.data_append]
              exact List.suffix_append _ _
            exact htail.trans hsuf.isInfix

/-- Substrings survive prepending: if `x` occurs in `s` it occurs in
`p ++ s`. -/
theorem pyIn_append_left (p : String) {x s : String}
    (h : x.data <:+: s.data) : x.data <:+: (p ++ s).data := by
  rw [String.data_append]
  exact h.trans (List.suffix_append p.data s.data).isInfix

/-- C4: `select_device` with no id raises `DeviceNotFound` when there are
zero ready devices; returns the sole ready device when there is exactly
one; with two or more raises `DeviceNotFound` whose message contains every
candidate device id; and with a (non-empty) id supplied delegates to
`validate_device`, which raises `DeviceNotFound` when the device is absent
from the fresh listing or present but not ready. -/
theorem claim_C4_select_device (devices : List DeviceInfo) :
    (get_ready_devices devices = [] →
        select_device devices none
          = Except.error (mkDeviceNotFoundErr "No ready devices available"))
    ∧ (∀ d, get_ready_devices devices = [d] →
        select_device devices none = Except.ok d)
    ∧ (2 ≤ (get_ready_devices devices).length →
        select_device devices none
            = Except.error
                (mkDeviceNotFoundErr (multiDeviceMsg (get_ready_devices devices)))
          ∧ ∀ d ∈ get_ready_devices devices,
              pyIn d.device_id
                ("Device not found or disconnected: "
                  ++ multiDeviceMsg (get_ready_devices devices)) = true)
    ∧ (∀ idStr : String, idStr ≠ "" →
        select_device devices (some idStr) = validate_device devices idStr)
    ∧ (∀ idStr : String,
        devices.find? (fun d => d.device_id == idStr) = none →
        validate_device devices idStr
          = Except.error (mkDeviceNotFoundErr idStr))
    ∧ (∀ (idStr : String) (d : DeviceInfo),
        devices.find? (fun d => d.device_id == idStr) = some d →
        d.is_ready = false →
        validate_device devices idStr
          = Except.error (mkDeviceNotFoundErr idStr)) := by
  refine ⟨fun h0 => ?_, fun d h1 => ?_, fun h2 => ⟨?_, fun d hd => ?_⟩,
          fun idStr hne => ?_, fun idStr hfind => ?_, fun idStr d hfind hnr => ?_⟩
  · simp [select_device, pyTruthy, h0]
  · simp [select_device, pyTruthy, h1]
  · rcases hlist : get_ready_devices devices with _ | ⟨a, _ | ⟨b, t⟩⟩
    · rw [hlist] at h2; simp at h2
    · rw [hlist] at h2; simp at h2
    · simp [select_device, pyTruthy, hlist]
  · refine pyIn_of_infix ?_
    have h1 : d.device_id.data
        <:+: (pyJoin ", " ((get_ready_devices devices).map
              (fun d => d.device_id))).data :=
      infix_pyJoin (List.mem_map_of_mem _ hd)
    have h2 : d.device_id.data <:+: (multiDeviceMsg (get_ready_devices devices)).data :=
      pyIn_append_left _ h1
    exact pyIn_append_left _ h2
  · simp [select_device, pyTruthy, hne]
  · simp [validate_device, hfind]
  · simp [validate_device, hfind, hnr]

/-- C4 witness at concrete device lists: the ambiguous two-ready-device
case with both ids in the message, auto-selection of a sole ready device,
the zero-ready failure, and validation failures for an absent and for a
not-ready device. -/
theorem claim_C4_select_device_witness :
    select_device
        [{ device_id := "aa", state := DeviceState.DEVICE },
         { device_id := "bb", state := DeviceState.DEVICE }] none
      = Except.error
          (mkDeviceNotFoundErr (multiDeviceMsg (get_ready_devices
            [{ device_id := "aa", state := DeviceState.DEVICE },
             { device_id := "bb", state := DeviceState.DEVICE }])))
    ∧ pyIn "bb"
        ("Device not found or disconnected: "
          ++ multiDeviceMsg (get_ready_devices
              [{ device_id := "aa", state := DeviceState.DEVICE },
               { device_id := "bb", state := DeviceState.DEVICE }])) = true
    ∧ select_device [{ device_id := "aa", state := DeviceState.DEVICE }] none
        = Except.ok { device_id := "aa", state := DeviceState.DEVICE }
    ∧ select_device [{ device_id := "cc", state := DeviceState.OFFLINE }] none
        = Except.error (mkDeviceNotFoundErr "No ready devices available")
    ∧ validate_device [{ device_id := "aa", state := DeviceState.DEVICE }] "zz"
        = Except.error (mkDeviceNotFoundErr "zz")
    ∧ validate_device [{ device_id := "cc", state := DeviceState.OFFLINE }] "cc"
        = Except.error (mkDeviceNotFoundErr "cc") :=
  ⟨((claim_C4_select_device _).2.2.1 (by decide)).1,
   ((claim_C4_select_device _).2.2.1 (by decide)).2
     { device_id := "bb", state := DeviceState.DEVICE } (by decide),
   (claim_C4_select_device _).2.1 _ (by decide),
   (claim_C4_select_device _).1 (by decide),
   (claim_C4_select_device _).2.2.2.2.1 "zz" (by decide),
   (claim_C4_select_device _).2.2.2.2.2 "cc"
     { device_id := "cc", state := DeviceState.OFFLINE } (by decide) (by decide)⟩

end AppFreeze
